import Mathlib

/-!
Verification of the Freshness-Aware Context Retrieval Engine of the
BOODSCHAP-RAG-SUPERIOR repository.

The development is a shallow embedding of the JavaScript sources
`src/core/rag-tools/vector-search.js`, `src/core/rag-tools/mongodb-client.js`
and `src/core/rag-tools/context-bridge.js`.  Pure functions are translated to
Lean functions; the filesystem-backed session cache is modelled as an explicit
association list from file names to file entries; the asynchronous backend
calls of the search aggregator are modelled by passing the settled response of
each backend as an argument.  JavaScript numbers are idealised as rationals,
except where `Math.exp` occurs, in which case the score lives in `ℝ` and the
exponential is `Real.exp`.  JavaScript truthiness (`x || d` substituting the
default for `0`, `''`, `undefined`) is modelled explicitly by the `jsOr*`
helpers below.
-/

namespace RagSuperior

/-! ### Constants (vector-search.js, lines 3-16) -/

def DEFAULT_LIMIT : Nat := 10
def SCORE_MULTIPLIER : Nat := 2
def MULTI_MATCH_BONUS : ℚ := 3/2
def PHRASE_MATCH_BONUS : ℚ := 10
def PRIORITY_BOOST_MULTIPLIER : ℚ := 3/2
def HOURS_IN_DAY : ℚ := 24
def MS_PER_HOUR : ℚ := 1000 * 60 * 60
def DEFAULT_DECAY_FACTOR : ℚ := 1/10
def DEFAULT_PRIORITY_HOURS : ℚ := 48

/-! ### JavaScript truthiness helpers

`jsOrNat v d` models `v || d` for a possibly-undefined number: `undefined`,
and the falsy number `0`, select the default. -/

def jsOrNat (v : Option Nat) (d : Nat) : Nat :=
  match v with
  | none => d
  | some 0 => d
  | some n => n

def jsOrQ (v : Option ℚ) (d : ℚ) : ℚ :=
  match v with
  | none => d
  | some x => if x = 0 then d else x

/-- Truthiness of a possibly-undefined string: `undefined` and `''` are falsy. -/
def jsTruthyStr (s : Option String) : Bool :=
  match s with
  | none => false
  | some t => !(t == "")

/-- First truthy of two possibly-undefined numbers (`a || b`); the number `0`
is falsy and falls through. -/
def jsFirstTruthyQ (a b : Option ℚ) : Option ℚ :=
  match a with
  | some t => if t = 0 then (match b with | some u => if u = 0 then none else some u | none => none) else some t
  | none => match b with | some u => if u = 0 then none else some u | none => none

/-! ### Character-level string machinery

JavaScript `String.prototype.toLowerCase`, `split(/\s+/)`, `includes`, and
word-boundary (`\b`) regex matching, rendered over `List Char`. -/

/-- `s.toLowerCase()` as a character list. -/
def strLower (s : String) : List Char := s.data.map Char.toLower

/-- A regex word character (`\w`, i.e. `[A-Za-z0-9_]`). -/
def isWordChar (c : Char) : Bool := c.isAlphanum || c == '_'

def wordCharAt (cs : List Char) (i : Nat) : Bool :=
  match cs.get? i with
  | some c => isWordChar c
  | none => false

/-- A `\b` word boundary holds at position `i` when exactly one of the
characters on either side of the position is a word character (positions
outside the string count as non-word). -/
def boundaryAt (cs : List Char) (i : Nat) : Bool :=
  (if i = 0 then false else wordCharAt cs (i - 1)) != wordCharAt cs i

/-- `listStartsWith needle hay`: `needle` is an initial segment of `hay`. -/
def listStartsWith : List Char → List Char → Bool
  | [], _ => true
  | _ :: _, [] => false
  | a :: as, b :: bs => a == b && listStartsWith as bs

/-- `containsSeq hay needle` models `hay.includes(needle)`. -/
def containsSeq (hay needle : List Char) : Bool :=
  hay.tails.any (fun t => listStartsWith needle t)

/-- The regex `\b w \b` matches in `cs` at position `i`. -/
def matchAt (w cs : List Char) (i : Nat) : Bool :=
  ((cs.drop i).take w.length == w) && boundaryAt cs i && boundaryAt cs (i + w.length)

/-- Fuel-driven scan of `new RegExp('\\b' + w + '\\b', 'gi').match` counting:
left-to-right, non-overlapping, advancing past each match. -/
def countMatchesFuel (w cs : List Char) : Nat → Nat → Nat
  | _, 0 => 0
  | i, Nat.succ fuel =>
    if cs.length < i + w.length then 0
    else if matchAt w cs i then
      1 + countMatchesFuel w cs (i + (if w.length = 0 then 1 else w.length)) fuel
    else countMatchesFuel w cs (i + 1) fuel

/-- Number of word-boundary occurrences of `w` in `cs`
(`(contentLower.match(regex) || []).length` in `calculateTextScore`).
The code interpolates the raw token into `new RegExp('\\b' + word + '\\b',
'gi')`; this model matches the token *literally*, which coincides with the
code exactly when the token contains no regex metacharacter (see
`regexLiteralToken`) — a token such as `node.js` acts as a wildcard pattern
in the code, and a token such as `c++` makes the `RegExp` constructor throw. -/
def countMatches (w cs : List Char) : Nat :=
  countMatchesFuel w cs 0 (cs.length + 1)

/-- The characters JavaScript regular expressions treat as metacharacters.
Because `calculateTextScore` interpolates the raw token between the two
`\b` anchors, only tokens free of these characters are matched as literal
words by the constructed regex. -/
def regexMeta : List Char :=
  ['\\', '^', '$', '.', '|', '?', '*', '+', '(', ')', '[', ']', '\x7b', '\x7d']

/-- The token contains no regex metacharacter, so the code's constructed
regex `\b token \b` denotes exact literal word-boundary occurrences and
`countMatches` models it faithfully. -/
def regexLiteralToken (w : List Char) : Bool :=
  w.all (fun c => !(regexMeta.contains c))

/-- One step of `query.toLowerCase().split(/\s+/)`: take the run of
non-whitespace, skip the following run of whitespace, recurse. -/
def splitWsFuel : Nat → List Char → List (List Char)
  | 0, _ => []
  | Nat.succ fuel, cs =>
    let tok := cs.takeWhile (fun c => !c.isWhitespace)
    let rest := cs.dropWhile (fun c => !c.isWhitespace)
    match rest with
    | [] => [tok]
    | _ :: rest2 => tok :: splitWsFuel fuel (rest2.dropWhile (fun c => c.isWhitespace))

/-- JavaScript `s.split(/\s+/)`: tokens separated by maximal whitespace runs,
keeping an empty leading/trailing token exactly as the regex split does. -/
def splitWsJS (cs : List Char) : List (List Char) :=
  splitWsFuel (cs.length + 1) cs

/-! ### QdrantClient.calculateTextScore (vector-search.js, lines 86-119) -/

/-- The `queryWords.forEach` body: accumulate `(score, exactMatches)`, skipping
words of length `≤ SCORE_MULTIPLIER`, adding `matches * SCORE_MULTIPLIER` to
the score and bumping `exactMatches` when the word occurred. -/
def textScoreStep (contentLower : List Char) (acc : ℚ × Nat) (w : List Char) : ℚ × Nat :=
  if w.length > SCORE_MULTIPLIER then
    ((acc.1 + (countMatches w contentLower : ℚ) * (SCORE_MULTIPLIER : ℚ)),
     if countMatches w contentLower > 0 then acc.2 + 1 else acc.2)
  else acc

/-- `QdrantClient.calculateTextScore(query, content)`.  Faithful to the
source for queries whose tokens are free of regex metacharacters (the
per-token regex is then a literal word-boundary match); theorems about the
general algorithm carry that guard. -/
def calculateTextScore (query content : String) : ℚ :=
  if content = "" then 0
  else
    let queryWords := splitWsJS (strLower query)
    let contentLower := (strLower content)
    let acc := queryWords.foldl (textScoreStep contentLower) (0, 0)
    let score := acc.1
    let exactMatches := acc.2
    let score := if exactMatches > 1 then score + (exactMatches : ℚ) * MULTI_MATCH_BONUS else score
    if queryWords.length > 1 && containsSeq contentLower (strLower query) then
      score + PHRASE_MATCH_BONUS
    else score

/-! ### The term-overlap heuristic as the specification words it

Closed-form restatements used to compare the code against the specification
sentence "split query into lowercase whitespace-delimited tokens, discard
tokens of length ≤ 2; weight 2 points per word-boundary occurrence; if more
than one distinct token matched, add 1.5 × distinctMatchCount; if the full
lowercase query appears as a contiguous substring, add a flat 10-point
bonus". -/

def survivingTokens (ws : List (List Char)) : List (List Char) :=
  ws.filter (fun w => w.length > SCORE_MULTIPLIER)

def occurrenceScore (contentLower : List Char) (ws : List (List Char)) : ℚ :=
  ((survivingTokens ws).map (fun w => (countMatches w contentLower : ℚ) * (SCORE_MULTIPLIER : ℚ))).sum

def matchedTokens (contentLower : List Char) (ws : List (List Char)) : List (List Char) :=
  (survivingTokens ws).filter (fun w => countMatches w contentLower > 0)

/-- Modelled from the spec, with the multi-match bonus counting matched tokens
with multiplicity (a duplicated query token counts twice), which is what the
code computes. -/
def specTextScoreMult (query content : String) : ℚ :=
  if content = "" then 0
  else
    let ws := splitWsJS (strLower query)
    let cl := (strLower content)
    let m := (matchedTokens cl ws).length
    occurrenceScore cl ws
      + (if m > 1 then (m : ℚ) * MULTI_MATCH_BONUS else 0)
      + (if ws.length > 1 && containsSeq cl (strLower query) then PHRASE_MATCH_BONUS else 0)

/-- Modelled from the spec: the multi-match bonus counts *distinct* matched
tokens, exactly as the specification sentence reads. -/
def specTextScoreDistinct (query content : String) : ℚ :=
  if content = "" then 0
  else
    let ws := splitWsJS (strLower query)
    let cl := (strLower content)
    let m := ((matchedTokens cl ws).dedup).length
    occurrenceScore cl ws
      + (if m > 1 then (m : ℚ) * MULTI_MATCH_BONUS else 0)
      + (if ws.length > 1 && containsSeq cl (strLower query) then PHRASE_MATCH_BONUS else 0)

/-! ### Search result data (vector-search.js / mongodb-client.js)

A Qdrant point as normalised by `QdrantClient.searchCollection`; payload
timestamps are epoch milliseconds. -/

structure QPayload where
  content : Option String := none
  created_at : Option ℚ := none
  upload_timestamp : Option ℚ := none
  deriving DecidableEq

structure QdrantResult where
  id : String
  payload : QPayload
  collection : String
  score : ℚ
  deriving DecidableEq

/-- A document as normalised by `MongoDBClient.searchDocuments`. -/
structure MongoDoc where
  id : String
  content : String
  deriving DecidableEq

/-- The settled value of one backend promise after the `.then`/`.catch`
wrappers in `createSearchPromises`: a plain object whose optional fields model
the fields a success or failure response carries.  The qdrant success shape
has `results`/`total`, the mongo success shape has `documents`/`count`, and a
failure shape has only `error`. -/
structure BackendResponse where
  success : Bool
  results : Option (List QdrantResult) := none
  documents : Option (List MongoDoc) := none
  total : Option Nat := none
  count : Option Nat := none
  error : Option String := none
  deriving DecidableEq

structure SearchSummary where
  totalSources : Nat
  successfulSources : Nat
  totalResults : Nat
  deriving DecidableEq

structure AggregateResult where
  success : Bool
  query : String
  databases : List (String × BackendResponse)
  summary : SearchSummary
  deriving DecidableEq

/-- `r.total || r.count || 0` (the falsy number `0` falls through). -/
def totalOrCount (r : BackendResponse) : Nat :=
  match r.total with
  | some (n + 1) => n + 1
  | _ => match r.count with
         | some (n + 1) => n + 1
         | _ => 0

/-! ### MultiDatabaseSearch (vector-search.js, lines 121-268)

The asynchronous backend calls are modelled by passing the settled response of
each backend (`qdrantR` for `this.qdrant.searchVectors`, `mongoR` for
`this.mongodb.searchDocuments`) as arguments; `Promise.all` then merely
collects them in order. -/

structure MultiDBOptions where
  freshnessDecayFactor : Option ℚ := none
  maxActiveResults : Option Nat := none
  latestPriorityHours : Option ℚ := none

structure MultiDatabaseSearch where
  freshnessDecayFactor : ℚ
  maxActiveResults : Nat
  latestPriorityHours : ℚ

/-- The constructor of `MultiDatabaseSearch`: every option defaults through
`||`, so the falsy value `0` also selects the default. -/
def MultiDatabaseSearch.ofOptions (o : MultiDBOptions) : MultiDatabaseSearch :=
  { freshnessDecayFactor := jsOrQ o.freshnessDecayFactor DEFAULT_DECAY_FACTOR
    maxActiveResults := jsOrNat o.maxActiveResults DEFAULT_LIMIT
    latestPriorityHours := jsOrQ o.latestPriorityHours DEFAULT_PRIORITY_HOURS }

/-- `createSearchPromises`: one tagged response per requested backend; the
mongo backend is requested by either tag and merged under the key `admin`. -/
def createSearchResponses (databases : List String) (qdrantR mongoR : BackendResponse) :
    List (String × BackendResponse) :=
  (if databases.contains "qdrant" then [("qdrant", qdrantR)] else []) ++
  (if databases.contains "mongodb" || databases.contains "admin" then [("admin", mongoR)] else [])

/-- `formatSearchResults`: the envelope is unconditionally successful; backend
failure shows only in the per-backend `success` flags and in the summary. -/
def formatSearchResults (query : String) (results : List (String × BackendResponse)) :
    AggregateResult :=
  { success := true
    query := query
    databases := results
    summary :=
      { totalSources := results.length
        successfulSources := (results.filter (fun r => r.2.success)).length
        totalResults := (results.map (fun r => totalOrCount r.2)).sum } }

/-- `searchAll(query, databases, limit)`; the per-backend `limit` is consumed
inside the backend calls, hence inside the given settled responses. -/
def searchAll (query : String) (databases : List String)
    (qdrantR mongoR : BackendResponse) : AggregateResult :=
  formatSearchResults query (createSearchResponses databases qdrantR mongoR)

/-! ### Timestamp-priority search (vector-search.js, lines 191-268) -/

structure TimestampSearchOptions where
  limit : Option Nat := none
  freshness_boost : Option Bool := none
  decay_factor : Option ℚ := none
  databases : Option (List String) := none

structure TimestampSearchConfig where
  limit : Nat
  freshness_boost : Bool
  decay_factor : ℚ
  databases : List String
  deriving DecidableEq

/-- `parseTimestampSearchOptions`: numeric options default through `||`
(`0` therefore selects the default), `freshness_boost` is
`options.freshness_boost !== false`. -/
def parseTimestampSearchOptions (o : TimestampSearchOptions) : TimestampSearchConfig :=
  { limit := jsOrNat o.limit DEFAULT_LIMIT
    freshness_boost := o.freshness_boost != some false
    decay_factor := jsOrQ o.decay_factor DEFAULT_DECAY_FACTOR
    databases := o.databases.getD ["qdrant"] }

/-- `result.payload?.created_at || result.payload?.upload_timestamp`. -/
def timestampField (p : QPayload) : Option ℚ :=
  jsFirstTruthyQ p.created_at p.upload_timestamp

/-- `calculateTimestampScore(result, now, decayFactor)`: results without a
payload timestamp score `1.0` (equally fresh); otherwise exponential decay in
the age in days. -/
noncomputable def calculateTimestampScore (r : QdrantResult) (now decayFactor : ℚ) : ℝ :=
  match timestampField r.payload with
  | none => 1
  | some ts =>
    Real.exp (-(decayFactor : ℝ) * (((now - ts) / (MS_PER_HOUR * HOURS_IN_DAY) : ℚ) : ℝ))

/-- An element of the result array after `applyTimestampScoring`: the spread
source object plus `enhanced_score`/`timestamp_boost` (absent when the
freshness branch was skipped). -/
structure OutResult where
  base : QdrantResult
  enhanced_score : Option ℝ
  timestamp_boost : Option ℝ

/-- The descending JavaScript sort comparator `(a, b) => f(b) - f(a)` as a
boolean relation for a stable merge sort. -/
noncomputable def descBool {α : Type} (f : α → ℝ) : α → α → Bool :=
  fun a b => decide (f b ≤ f a)

/-- `applyTimestampScoring`: map every qdrant result to its enhanced form
(`originalScore = result.score || 1.0`), then sort descending by
`enhanced_score`. -/
noncomputable def enhanceResult (now decayFactor : ℚ) (r : QdrantResult) : OutResult :=
  let tsScore := calculateTimestampScore r now decayFactor
  let originalScore : ℚ := if r.score = 0 then 1 else r.score
  { base := r, enhanced_score := some ((originalScore : ℝ) * tsScore), timestamp_boost := some tsScore }

noncomputable def applyTimestampScoring (rs : List QdrantResult) (now decayFactor : ℚ) :
    List OutResult :=
  (rs.map (enhanceResult now decayFactor)).mergeSort
    (descBool (fun r => r.enhanced_score.getD 0))

/-- The value of `formatTimestampSearchResult`. -/
structure RankedResult where
  success : Bool
  query : String
  results : List OutResult
  total : Nat
  freshness_applied : Bool
  decay_factor : ℚ

/-- `searchWithTimestampPriority(query, options)`.  `searchAll` always returns
`success: true`, so the early `if (!searchResult.success)` return is dead; the
freshness branch fires only when the qdrant entry exists and carries a
`results` field (an empty array is truthy), and only the qdrant list is ever
rescored or returned. -/
noncomputable def searchWithTimestampPriority (query : String) (o : TimestampSearchOptions)
    (qdrantR mongoR : BackendResponse) (now : ℚ) : RankedResult :=
  let config := parseTimestampSearchOptions o
  let searchResult := searchAll query config.databases qdrantR mongoR
  let qdrantResults : Option (List QdrantResult) :=
    (searchResult.databases.lookup "qdrant").bind (fun resp => resp.results)
  let finalResults : List OutResult :=
    match qdrantResults with
    | some rs =>
      if config.freshness_boost then applyTimestampScoring rs now config.decay_factor
      else rs.map (fun r => { base := r, enhanced_score := none, timestamp_boost := none })
    | none => []
  { success := true
    query := query
    results := finalResults
    total := searchResult.summary.totalResults
    freshness_applied := config.freshness_boost
    decay_factor := config.decay_factor }

/-- `MultiDatabaseSearch.calculateRelevance(semanticScore, timestamp, boost)`
(vector-search.js, lines 176-189): the recency boost applies whenever
`ageHours ≤ latestPriorityHours` — note that a negative age (future
timestamp) also satisfies this and is not clamped. -/
noncomputable def MultiDatabaseSearch.calculateRelevance (s : MultiDatabaseSearch)
    (semanticScore timestamp now boost : ℚ) : ℝ :=
  let ageHours := (now - timestamp) / MS_PER_HOUR
  let finalBoost := if ageHours ≤ s.latestPriorityHours then boost * PRIORITY_BOOST_MULTIPLIER else boost
  let ageDays := ageHours / HOURS_IN_DAY
  let freshnessPenalty := Real.exp (-((s.freshnessDecayFactor : ℝ) * (ageDays : ℝ)))
  (semanticScore : ℝ) * freshnessPenalty * (finalBoost : ℝ)

/-! ### Real-time query processing pipeline (context-bridge.js, lines 88-140)

The four stages are asynchronous calls whose runtime outcome (normal return or
thrown exception) is passed in as an `Except` value, the context payload is an
arbitrary type; the embedding captures the control flow of
`processQueryWithRealTimeData` around them. -/

structure InjectionStats where
  sourcesInjected : Nat
  injectionTime : ℚ
  dataSize : Nat
  deriving DecidableEq

structure CompressionStats where
  originalSize : Nat
  compressedSize : Nat
  targetReduction : ℚ
  actualReduction : String
  deriving DecidableEq

structure TokenStats where
  originalTokens : Nat
  optimizedTokens : Nat
  tokenReduction : String
  deriving DecidableEq

/-- The value of `injectRealTimeData`: its own catch converts an exception
into a `success: false` object, so the caller sees one of two shapes.
`timestamp` is the `realTimeData.timestamp` written into the enhanced
context, which the pipeline later reads back for its processing-time
statistic. -/
inductive InjectionResult (Ctx : Type) where
  | ok (enhancedContext : Ctx) (timestamp : ℚ) (stats : InjectionStats)
  | fail (error : String) (originalContext : Ctx)
  deriving DecidableEq

structure PipelineStats where
  injectionStats : InjectionStats
  compressionStats : CompressionStats
  tokenStats : TokenStats
  totalProcessingTime : ℚ
  deriving DecidableEq

/-- The envelope returned by `processQueryWithRealTimeData`: the success shape
carries the enhanced context and the pipeline statistics, the catch shape
carries only `error`, `query` and a timestamp. -/
structure PipelineResult (Ctx : Type) where
  success : Bool
  query : String
  enhancedContext : Option Ctx
  pipeline : Option PipelineStats
  error : Option String
  deriving DecidableEq

/-- The body of the try block of `processQueryWithRealTimeData`: the four
stages in order, each consuming the previous stage's output; the first throw
aborts the rest. -/
def pipelineRun {Ctx : Type} (query : String) (context : Ctx) (now : ℚ)
    (injectRealTimeData : Ctx → InjectionResult Ctx)
    (filterByQueryRelevance : String → Ctx → Except String Ctx)
    (compressContext : Ctx → Except String (Ctx × CompressionStats))
    (optimizeTokens : Ctx → Except String (Ctx × TokenStats)) :
    Except String (Ctx × PipelineStats) := do
  match injectRealTimeData context with
  | .fail e _ => throw ("Real-time data injection failed: " ++ e)
  | .ok c0 injTs istats => do
    let c1 ← filterByQueryRelevance query c0
    let r2 ← compressContext c1
    let r3 ← optimizeTokens r2.1
    pure (r3.1, { injectionStats := istats, compressionStats := r2.2,
                  tokenStats := r3.2, totalProcessingTime := now - injTs })

/-- `processQueryWithRealTimeData(query, context)`: run the four stages in
order inside one try block; any throw lands in the catch, which returns
`success: false` with only the error message and the query. -/
def processQueryWithRealTimeData {Ctx : Type} (query : String) (context : Ctx) (now : ℚ)
    (injectRealTimeData : Ctx → InjectionResult Ctx)
    (filterByQueryRelevance : String → Ctx → Except String Ctx)
    (compressContext : Ctx → Except String (Ctx × CompressionStats))
    (optimizeTokens : Ctx → Except String (Ctx × TokenStats)) : PipelineResult Ctx :=
  match pipelineRun query context now injectRealTimeData filterByQueryRelevance
      compressContext optimizeTokens with
  | .ok r =>
    { success := true, query := query, enhancedContext := some r.1,
      pipeline := some r.2, error := none }
  | .error e =>
    { success := false, query := query, enhancedContext := none,
      pipeline := none, error := some e }

/-! ### Session store (context-bridge.js)

`BOSSContextBridge` persists sessions as JSON files
`<contextCacheDir>/<sessionId>.json`.  The directory is modelled as an
association list from file names to file entries; `parsed` is the session
record a successful `JSON.parse` of the file yields (`none` models a corrupt
file), `size`/`mtime` model the `fs.stat` results.  Serialisation of the
opaque `context`/`metadata` payloads is the identity on an opaque string. -/

structure SessionData where
  sessionId : String
  projectName : String
  context : String
  metadata : String
  captureTime : String
  timestamp : ℚ
  version : String
  deriving DecidableEq

structure FileEntry where
  parsed : Option SessionData
  size : Nat
  mtime : ℚ
  deriving DecidableEq

abbrev Store := List (String × FileEntry)

/-- Writing a file: replace any entry with the same name (last-writer-wins);
directory enumeration order is unspecified, so the position is immaterial. -/
def setFile (store : Store) (name : String) (e : FileEntry) : Store :=
  (name, e) :: store.filter (fun p => !(p.1 == name))

structure BridgeOptions where
  sessionTimeout : Option ℚ := none
  maxActiveSessions : Option Nat := none
  freshnessDecayFactor : Option ℚ := none

structure BridgeConfig where
  sessionTimeout : ℚ
  maxActiveSessions : Nat
  freshnessDecayFactor : ℚ

/-- The `BOSSContextBridge` constructor defaults
(`sessionTimeout || 30*60*1000`, `maxActiveSessions || 5`,
`freshnessDecayFactor || 0.1`). -/
def BridgeConfig.ofOptions (o : BridgeOptions) : BridgeConfig :=
  { sessionTimeout := jsOrQ o.sessionTimeout (30 * 60 * 1000)
    maxActiveSessions := jsOrNat o.maxActiveSessions 5
    freshnessDecayFactor := jsOrQ o.freshnessDecayFactor DEFAULT_DECAY_FACTOR }

/-- `BOSSContextBridge.calculateRelevance(semanticScore, timestamp,
decayFactor)` (context-bridge.js, lines 293-297). -/
noncomputable def bridgeCalculateRelevance (decayFactor semanticScore timestamp now : ℚ) : ℝ :=
  (semanticScore : ℝ) *
    Real.exp (-(decayFactor : ℝ) * (((now - timestamp) / (1000 * 60 * 60 * 24) : ℚ) : ℝ))

structure CaptureResult where
  success : Bool
  sessionId : String
  projectName : String
  filePath : String
  size : Nat
  deriving DecidableEq

/-- `captureSession(sessionId, projectName, context, metadata)`: build the
session record, write it to `<sessionId>.json` (overwriting), answer with a
success envelope.  `JSON.stringify` of the record is never empty; its length
is modelled as a positive byte count. -/
def captureSession (store : Store) (now : ℚ) (nowIso : String)
    (sessionId projectName context metadata : String) : Store × CaptureResult :=
  let sessionData : SessionData :=
    { sessionId := sessionId, projectName := projectName, context := context,
      metadata := metadata, captureTime := nowIso, timestamp := now, version := "1.0.0" }
  let fileName := sessionId ++ ".json"
  let entry : FileEntry :=
    { parsed := some sessionData,
      size := 2 + context.length + metadata.length + sessionId.length + projectName.length,
      mtime := now }
  (setFile store fileName entry,
   { success := true, sessionId := sessionId, projectName := projectName,
     filePath := fileName, size := entry.size })

/-- The failure causes `restoreSession` distinguishes through its thrown /
caught error message: a missing file (ENOENT from `fs.readFile`), an
unparseable file (`JSON.parse` throw), or the explicit project-mismatch
throw. -/
inductive RestoreError where
  | notFound (fileName : String)
  | parseError (fileName : String)
  | projectMismatch (expected got : String)
  deriving DecidableEq

structure RestoreResult where
  success : Bool
  sessionId : String
  projectName : Option String
  context : Option String
  metadata : Option String
  captureTime : Option String
  error : Option RestoreError
  deriving DecidableEq

/-- `restoreSession(sessionId, projectName)`: read `<sessionId>.json`, parse,
then `if (projectName && sessionData.projectName !== projectName) throw` —
note the truthiness guard: an absent or empty `projectName` skips the check
entirely. -/
def restoreSession (store : Store) (sessionId : String) (projectName : Option String) :
    RestoreResult :=
  let fileName := sessionId ++ ".json"
  match List.lookup fileName store with
  | none =>
    { success := false, sessionId := sessionId, projectName := projectName,
      context := none, metadata := none, captureTime := none,
      error := some (RestoreError.notFound fileName) }
  | some entry =>
    match entry.parsed with
    | none =>
      { success := false, sessionId := sessionId, projectName := projectName,
        context := none, metadata := none, captureTime := none,
        error := some (RestoreError.parseError fileName) }
    | some sd =>
      if jsTruthyStr projectName && !(sd.projectName == projectName.getD "") then
        { success := false, sessionId := sessionId, projectName := projectName,
          context := none, metadata := none, captureTime := none,
          error := some (RestoreError.projectMismatch (projectName.getD "") sd.projectName) }
      else
        { success := true, sessionId := sessionId, projectName := some sd.projectName,
          context := some sd.context, metadata := some sd.metadata,
          captureTime := some sd.captureTime, error := none }

/-! ### listActiveSessions (context-bridge.js, lines 299-340) -/

/-- `suf` is a final segment of `hay` (`file.endsWith('.json')`). -/
def listEndsWith (hay suf : List Char) : Bool :=
  decide (suf.length ≤ hay.length) && listStartsWith suf (hay.drop (hay.length - suf.length))

/-- JavaScript `String.prototype.replace` with a plain-string pattern
replaces only the first occurrence. -/
def replaceFirst (pat rep : List Char) : List Char → List Char
  | [] => []
  | c :: rest =>
    if listStartsWith pat (c :: rest) then rep ++ (c :: rest).drop pat.length
    else c :: replaceFirst pat rep rest

/-- The per-file filter of the `listActiveSessions` loop:
`file.endsWith('.json') && (!projectName || file.includes(projectName))` —
the project filter is a substring test on the file name. -/
def sessionFileAccept (projectName : Option String) (file : String) : Bool :=
  listEndsWith file.data ".json".data &&
    (!(jsTruthyStr projectName) || containsSeq file.data (projectName.getD "").data)

structure SessionListing where
  sessionId : String
  projectName : String
  lastAccessed : ℚ
  size : Nat
  relevanceScore : ℝ

structure ListResult where
  success : Bool
  sessions : List SessionListing
  total : Nat

/-- The listing record pushed for one session file
(`sessionData.sessionId || file.replace('.json', '')`, relevance scored with
base `1.0` from the file modification time). -/
noncomputable def mkListing (cfg : BridgeConfig) (now : ℚ) (file : String) (e : FileEntry)
    (sd : SessionData) : SessionListing :=
  { sessionId := if sd.sessionId == "" then String.mk (replaceFirst ".json".data [] file.data)
                 else sd.sessionId
    projectName := sd.projectName
    lastAccessed := e.mtime
    size := e.size
    relevanceScore := bridgeCalculateRelevance cfg.freshnessDecayFactor 1 e.mtime now }

/-- The session list accumulated by the loop: files failing the name filter
are not considered, empty files and files whose `JSON.parse` throws are
skipped with a warning. -/
noncomputable def listSessionsRaw (cfg : BridgeConfig) (store : Store) (now : ℚ)
    (projectName : Option String) : List SessionListing :=
  store.filterMap (fun fe =>
    if sessionFileAccept projectName fe.1 then
      if fe.2.size = 0 then none
      else
        match fe.2.parsed with
        | none => none
        | some sd => some (mkListing cfg now fe.1 fe.2 sd)
    else none)

/-- `listActiveSessions(projectName)`: collect, sort descending by
`relevanceScore`, truncate to `maxActiveSessions`; `total` is the
pre-truncation count. -/
noncomputable def listActiveSessions (cfg : BridgeConfig) (store : Store) (now : ℚ)
    (projectName : Option String) : ListResult :=
  let sessions := listSessionsRaw cfg store now projectName
  let sorted := sessions.mergeSort (descBool (fun l => l.relevanceScore))
  { success := true, sessions := sorted.take cfg.maxActiveSessions, total := sessions.length }

/-! ### Concrete data shared by witnesses and counterexamples -/

def cexQdrantHit : QdrantResult :=
  { id := "q1", payload := { content := some "qdrant content" },
    collection := "boss-lessons-learned", score := 2 }

def cexMongoDoc : MongoDoc := { id := "m1", content := "mongo message body" }

def cexQdrantResp : BackendResponse :=
  { success := true, results := some [cexQdrantHit], total := some 1 }

def cexQdrantFailResp : BackendResponse :=
  { success := false, error := some "fetch failed" }

def cexMongoResp : BackendResponse :=
  { success := true, documents := some [cexMongoDoc], count := some 1 }

def cexTPOptions : TimestampSearchOptions := { databases := some ["qdrant", "mongodb"] }

def cexInject : Nat → InjectionResult Nat :=
  fun c => .ok (c + 1) 5 { sourcesInjected := 3, injectionTime := 2, dataSize := 100 }

def cexFilterThrow : String → Nat → Except String Nat :=
  fun _ _ => .error "Converting circular structure to JSON"

def cexCompress : Nat → Except String (Nat × CompressionStats) :=
  fun c => .ok (c, { originalSize := 10, compressedSize := 4, targetReduction := 3/5,
                     actualReduction := "60.0%" })

def cexOptimize : Nat → Except String (Nat × TokenStats) :=
  fun c => .ok (c, { originalTokens := 10, optimizedTokens := 8, tokenReduction := "20.0%" })

def cexSessionAlpha : SessionData :=
  { sessionId := "s1", projectName := "alpha", context := "ctx-data", metadata := "meta-data",
    captureTime := "2026-01-01T00:00:00Z", timestamp := 1, version := "1.0.0" }

def cexEntryAlpha : FileEntry := { parsed := some cexSessionAlpha, size := 42, mtime := 1 }

def cexStore : Store := [("s1.json", cexEntryAlpha)]

def cexListSession : SessionData :=
  { sessionId := "beta-7", projectName := "alpha", context := "c", metadata := "m",
    captureTime := "2026-01-02T00:00:00Z", timestamp := 0, version := "1.0.0" }

def cexListEntry : FileEntry := { parsed := some cexListSession, size := 12, mtime := 0 }

def cexListStore : Store := [("beta-7.json", cexListEntry)]

def cexBridgeCfg : BridgeConfig :=
  { sessionTimeout := 1800000, maxActiveSessions := 5, freshnessDecayFactor := 1 }

/-! ### Helper lemmas about the descending sort -/

theorem descBool_trans {α : Type} (f : α → ℝ) :
    ∀ a b c, descBool f a b = true → descBool f b c = true → descBool f a c = true := by
  intro a b c h1 h2
  simp only [descBool, decide_eq_true_eq] at h1 h2 ⊢
  exact le_trans h2 h1

theorem descBool_total {α : Type} (f : α → ℝ) :
    ∀ a b, (descBool f a b || descBool f b a) = true := by
  intro a b
  simp only [descBool, Bool.or_eq_true, decide_eq_true_eq]
  exact le_total (f b) (f a)

theorem pairwise_mergeSort_descBool {α : Type} (f : α → ℝ) (l : List α) :
    List.Pairwise (fun a b => f b ≤ f a) (l.mergeSort (descBool f)) := by
  have h := List.sorted_mergeSort (descBool_trans f) (descBool_total f) l
  exact h.imp (fun hab => by simpa [descBool] using hab)

/-! ### Claim theorems -/

/-- Claim C9: the envelope returned by `searchAll` has `success = true` for
every query and every set of requested backends, whatever the per-backend
responses are — total or partial backend failure is visible only in the
per-backend flags and the summary, never in the top-level `success` field. -/
theorem searchAll_always_success (query : String) (dbs : List String)
    (qdrantR mongoR : BackendResponse) :
    (searchAll query dbs qdrantR mongoR).success = true := rfl

/-- Claim C7: with both backends requested and exactly one of the two settled
responses successful, `searchAll` reports `totalSources = 2` and
`successfulSources = 1`, and both responses — in particular the succeeding
backend's result list — are present under the key of their originating
backend tag. -/
theorem searchAll_partial_failure (query : String) (dbs : List String)
    (qdrantR mongoR : BackendResponse)
    (hq : dbs.contains "qdrant" = true)
    (hm : (dbs.contains "mongodb" || dbs.contains "admin") = true)
    (hone : qdrantR.success ≠ mongoR.success) :
    (searchAll query dbs qdrantR mongoR).summary.totalSources = 2 ∧
    (searchAll query dbs qdrantR mongoR).summary.successfulSources = 1 ∧
    (searchAll query dbs qdrantR mongoR).databases.lookup "qdrant" = some qdrantR ∧
    (searchAll query dbs qdrantR mongoR).databases.lookup "admin" = some mongoR := by
  simp only [searchAll, createSearchResponses, hq, hm, if_true, formatSearchResults]
  refine ⟨rfl, ?_, by simp [List.lookup], by simp [List.lookup]⟩
  cases h1 : qdrantR.success <;> cases h2 : mongoR.success <;>
    simp_all [List.filter]

/-- Witness for C7 at a failing qdrant backend and a succeeding mongo
backend. -/
theorem searchAll_partial_failure_witness :
    (["qdrant", "mongodb"].contains "qdrant" = true) ∧
    ((["qdrant", "mongodb"].contains "mongodb" || ["qdrant", "mongodb"].contains "admin") = true) ∧
    cexQdrantFailResp.success ≠ cexMongoResp.success ∧
    ((searchAll "q" ["qdrant", "mongodb"] cexQdrantFailResp cexMongoResp).summary.totalSources = 2 ∧
     (searchAll "q" ["qdrant", "mongodb"] cexQdrantFailResp cexMongoResp).summary.successfulSources = 1 ∧
     (searchAll "q" ["qdrant", "mongodb"] cexQdrantFailResp cexMongoResp).databases.lookup "qdrant" = some cexQdrantFailResp ∧
     (searchAll "q" ["qdrant", "mongodb"] cexQdrantFailResp cexMongoResp).databases.lookup "admin" = some cexMongoResp) :=
  ⟨by decide, by decide, by decide,
   searchAll_partial_failure "q" ["qdrant", "mongodb"] cexQdrantFailResp cexMongoResp
     (by decide) (by decide) (by decide)⟩

/-- Claim C5: capturing a session and immediately restoring it by the same
`sessionId` with no project filter succeeds and returns exactly the `context`
and `metadata` that were written. -/
theorem capture_restore_roundtrip (store : Store) (now : ℚ) (nowIso : String)
    (sessionId projectName context metadata : String) :
    (captureSession store now nowIso sessionId projectName context metadata).2.success = true ∧
    (restoreSession (captureSession store now nowIso sessionId projectName context metadata).1
      sessionId none).success = true ∧
    (restoreSession (captureSession store now nowIso sessionId projectName context metadata).1
      sessionId none).context = some context ∧
    (restoreSession (captureSession store now nowIso sessionId projectName context metadata).1
      sessionId none).metadata = some metadata := by
  refine ⟨rfl, ?_, ?_, ?_⟩ <;>
    simp [captureSession, restoreSession, setFile, List.lookup, jsTruthyStr]

/-- Claim C4 counterexample: with the injection stage succeeding (producing
the enriched context `1`) and the relevance-filter stage throwing, the
pipeline returns `success = false` with `enhancedContext = none` — the
partial context produced by the completed stage is not carried in the
failure envelope, refuting the claim. -/
theorem pipeline_failure_discards_context :
    cexInject 0 = InjectionResult.ok 1 5 { sourcesInjected := 3, injectionTime := 2, dataSize := 100 } ∧
    (processQueryWithRealTimeData "status" 0 9 cexInject cexFilterThrow cexCompress cexOptimize).success = false ∧
    (processQueryWithRealTimeData "status" 0 9 cexInject cexFilterThrow cexCompress cexOptimize).enhancedContext = none := by
  exact ⟨rfl, rfl, rfl⟩

/-- Claim C4 (amended): whenever any stage of
`processQueryWithRealTimeData` throws, the pipeline returns `success = false`
carrying only the error message and the query — the context produced by
earlier completed stages, and all pipeline statistics, are discarded. -/
theorem pipeline_failure_returns_no_context {Ctx : Type} (query : String) (context : Ctx)
    (now : ℚ) (inject : Ctx → InjectionResult Ctx)
    (filterStage : String → Ctx → Except String Ctx)
    (compressStage : Ctx → Except String (Ctx × CompressionStats))
    (optimizeStage : Ctx → Except String (Ctx × TokenStats)) :
    (processQueryWithRealTimeData query context now inject filterStage compressStage optimizeStage).success = false →
    (processQueryWithRealTimeData query context now inject filterStage compressStage optimizeStage).enhancedContext = none ∧
    (processQueryWithRealTimeData query context now inject filterStage compressStage optimizeStage).pipeline = none := by
  unfold processQueryWithRealTimeData
  cases pipelineRun query context now inject filterStage compressStage optimizeStage <;> simp

/-- Witness for the amended C4 at the concrete failing pipeline. -/
theorem pipeline_failure_returns_no_context_witness :
    (processQueryWithRealTimeData "status" 0 9 cexInject cexFilterThrow cexCompress cexOptimize).success = false ∧
    ((processQueryWithRealTimeData "status" 0 9 cexInject cexFilterThrow cexCompress cexOptimize).enhancedContext = none ∧
     (processQueryWithRealTimeData "status" 0 9 cexInject cexFilterThrow cexCompress cexOptimize).pipeline = none) :=
  ⟨rfl, pipeline_failure_returns_no_context "status" 0 9 cexInject cexFilterThrow cexCompress cexOptimize rfl⟩

/-- Claim C6 counterexample: restoring with the supplied project name `""`,
which differs from the stored project name `"alpha"`, nevertheless succeeds
and returns the stored data — the JavaScript truthiness guard
`if (projectName && ...)` skips the mismatch check for an empty string, so
the claim fails as universally stated. -/
theorem restore_empty_project_returns_mismatched_data :
    ("" : String) ≠ cexSessionAlpha.projectName ∧
    (restoreSession cexStore "s1" (some "")).success = true ∧
    (restoreSession cexStore "s1" (some "")).context = some "ctx-data" ∧
    (restoreSession cexStore "s1" (some "")).metadata = some "meta-data" := by
  exact ⟨by decide, rfl, rfl, rfl⟩

/-- Claim C6 (amended): `restoreSession` fails with the not-found error and
no data when no session file with the given id is stored; and when a
*non-empty* `projectName` is supplied that is not strictly equal to the
stored project name, it fails with the project-mismatch error and returns no
data (an empty-string `projectName` is falsy and skips the check). -/
theorem restore_notFound_and_projectMismatch (store : Store) (sessionId : String) :
    (∀ p : Option String, List.lookup (sessionId ++ ".json") store = none →
      (restoreSession store sessionId p).success = false ∧
      (restoreSession store sessionId p).error = some (RestoreError.notFound (sessionId ++ ".json")) ∧
      (restoreSession store sessionId p).context = none ∧
      (restoreSession store sessionId p).metadata = none) ∧
    (∀ (pn : String) (e : FileEntry) (sd : SessionData),
      List.lookup (sessionId ++ ".json") store = some e → e.parsed = some sd →
      pn ≠ "" → sd.projectName ≠ pn →
      (restoreSession store sessionId (some pn)).success = false ∧
      (restoreSession store sessionId (some pn)).error = some (RestoreError.projectMismatch pn sd.projectName) ∧
      (restoreSession store sessionId (some pn)).context = none ∧
      (restoreSession store sessionId (some pn)).metadata = none) := by
  constructor
  · intro p hnone
    simp [restoreSession, hnone]
  · intro pn e sd hlook hparsed hpn hne
    simp [restoreSession, hlook, hparsed, jsTruthyStr, hpn, hne]

/-- Witness for the amended C6: a missing session id fails, and a non-empty
mismatching project name fails without returning the stored data. -/
theorem restore_errors_witness :
    ((restoreSession cexStore "missing" none).success = false ∧
     (restoreSession cexStore "missing" none).error = some (RestoreError.notFound "missing.json") ∧
     (restoreSession cexStore "missing" none).context = none ∧
     (restoreSession cexStore "missing" none).metadata = none) ∧
    ((restoreSession cexStore "s1" (some "beta")).success = false ∧
     (restoreSession cexStore "s1" (some "beta")).error = some (RestoreError.projectMismatch "beta" "alpha") ∧
     (restoreSession cexStore "s1" (some "beta")).context = none ∧
     (restoreSession cexStore "s1" (some "beta")).metadata = none) :=
  ⟨(restore_notFound_and_projectMismatch cexStore "missing").1 none rfl,
   (restore_notFound_and_projectMismatch cexStore "s1").2 "beta" cexEntryAlpha cexSessionAlpha
     rfl rfl (by decide) (by decide)⟩

/-- Closed form of the `queryWords.forEach` accumulation in
`calculateTextScore`. -/
theorem textScore_foldl (cl : List Char) (ws : List (List Char)) (s : ℚ) (e : Nat) :
    ws.foldl (textScoreStep cl) (s, e) =
      (s + occurrenceScore cl ws, e + (matchedTokens cl ws).length) := by
  induction ws generalizing s e with
  | nil => simp [occurrenceScore, matchedTokens, survivingTokens]
  | cons w ws ih =>
    simp only [List.foldl_cons, textScoreStep]
    by_cases hw : w.length > SCORE_MULTIPLIER
    · by_cases hm : countMatches w cl > 0
      · rw [if_pos hw, if_pos hm, ih]
        simp [occurrenceScore, matchedTokens, survivingTokens, hw, hm]
        constructor
        · ring
        · omega
      · rw [if_pos hw, if_neg hm, ih]
        simp [occurrenceScore, matchedTokens, survivingTokens, hw, hm]
        ring
    · rw [if_neg hw, ih]
      simp [occurrenceScore, matchedTokens, survivingTokens, hw]

/-- The code's score agrees everywhere with the closed-form heuristic whose
multi-match bonus counts matched tokens with multiplicity. -/
theorem calculateTextScore_eq_specMult (query content : String) :
    calculateTextScore query content = specTextScoreMult query content := by
  by_cases hc : content = ""
  · simp [calculateTextScore, specTextScoreMult, hc]
  · simp only [calculateTextScore, specTextScoreMult, hc, if_false, if_neg, not_false_iff]
    rw [textScore_foldl]
    simp only [zero_add]
    split_ifs <;> ring

/-- Claim C8 counterexample: on the duplicate-token query `"boss boss"`
against content `"boss value"` — whose tokens contain no regex
metacharacter, so the embedding matches the code's regexes exactly here —
the code scores 7: `exactMatches` counts the token list with multiplicity,
so the 1.5-per-match bonus fires, while the specified algorithm, whose bonus
counts *distinct* matched tokens, yields 4; the code therefore does not
follow the specified algorithm as stated. -/
theorem textScore_counts_duplicates_not_distinct :
    (splitWsJS (strLower "boss boss")).all regexLiteralToken = true ∧
    calculateTextScore "boss boss" "boss value" = 7 ∧
    specTextScoreDistinct "boss boss" "boss value" = 4 := by
  refine ⟨by decide, ?_⟩
  have h1 : splitWsJS (strLower "boss boss") = [['b','o','s','s'], ['b','o','s','s']] := by decide
  have hc1 : countMatches ['b','o','s','s'] (strLower "boss value") = 1 := by decide
  have hmat : matchedTokens (strLower "boss value") [['b','o','s','s'], ['b','o','s','s']] =
      [['b','o','s','s'], ['b','o','s','s']] := by decide
  have hcont : containsSeq (strLower "boss value") (strLower "boss boss") = false := by decide
  have hne : ¬ (("boss value" : String) = "") := by decide
  constructor
  · rw [calculateTextScore_eq_specMult]
    simp only [specTextScoreMult, h1, hmat, hcont, if_neg hne]
    norm_num [occurrenceScore, survivingTokens, hc1, MULTI_MATCH_BONUS, SCORE_MULTIPLIER]
  · simp only [specTextScoreDistinct, h1, hmat, hcont, if_neg hne]
    norm_num [occurrenceScore, survivingTokens, hc1, MULTI_MATCH_BONUS, SCORE_MULTIPLIER,
      List.dedup]

/-- Claim C8 (amended): for queries whose tokens are free of regex
metacharacters — the raw token is interpolated into
`new RegExp('\\b' + word + '\\b', 'gi')`, so a metacharacter token acts as a
pattern (`node.js` matches `node js`) or makes the constructor throw
(`c++`) — `calculateTextScore` follows the specified algorithm with the
multi-match bonus counting matched tokens *with multiplicity* (lowercase
whitespace tokenization, tokens of length ≤ 2 discarded, 2 points per
word-boundary occurrence, 1.5 × matched-token count when more than one token
of the list matched, flat 10-point bonus when the full multi-token lowercase
query is a contiguous substring); in particular, for the query "boss rag"
and content "BOSS RAG system is enterprise grade" it returns exactly 17. -/
theorem textScore_formula_and_example :
    (∀ query content, (splitWsJS (strLower query)).all regexLiteralToken = true →
      calculateTextScore query content = specTextScoreMult query content) ∧
    calculateTextScore "boss rag" "BOSS RAG system is enterprise grade" = 17 := by
  refine ⟨fun query content _ => calculateTextScore_eq_specMult query content, ?_⟩
  rw [calculateTextScore_eq_specMult]
  have h1 : splitWsJS (strLower "boss rag") = [['b','o','s','s'], ['r','a','g']] := by decide
  have hc1 : countMatches ['b','o','s','s'] (strLower "BOSS RAG system is enterprise grade") = 1 := by
    decide
  have hc2 : countMatches ['r','a','g'] (strLower "BOSS RAG system is enterprise grade") = 1 := by
    decide
  have hmat : matchedTokens (strLower "BOSS RAG system is enterprise grade")
      [['b','o','s','s'], ['r','a','g']] = [['b','o','s','s'], ['r','a','g']] := by decide
  have hcont : containsSeq (strLower "BOSS RAG system is enterprise grade")
      (strLower "boss rag") = true := by decide
  have hne : ¬ (("BOSS RAG system is enterprise grade" : String) = "") := by decide
  simp only [specTextScoreMult, h1, hmat, hcont, if_neg hne]
  norm_num [occurrenceScore, survivingTokens, hc1, hc2, MULTI_MATCH_BONUS,
    PHRASE_MATCH_BONUS, SCORE_MULTIPLIER]

/-- Witness for the amended C8 at the metacharacter-free query "boss rag". -/
theorem textScore_formula_witness :
    ((splitWsJS (strLower "boss rag")).all regexLiteralToken = true) ∧
    calculateTextScore "boss rag" "BOSS RAG system is enterprise grade" =
      specTextScoreMult "boss rag" "BOSS RAG system is enterprise grade" :=
  ⟨by decide,
   textScore_formula_and_example.1 "boss rag" "BOSS RAG system is enterprise grade" (by decide)⟩

/-- Claim C2 counterexample: with the default configuration (decay 0.1,
priority window 48h) and a timestamp 240 hours in the future of `now = 0`,
`calculateRelevance` returns `exp(1) × 1.5 > 1.5 = baseScore × maxBoost` —
negative ages are not clamped, the decay term exceeds 1, and the claimed
invariant fails. -/
theorem calculateRelevance_future_exceeds_bound :
    (MultiDatabaseSearch.ofOptions {}).calculateRelevance 1 (240 * MS_PER_HOUR) 0 1 >
      ((1 : ℚ) : ℝ) * ((PRIORITY_BOOST_MULTIPLIER : ℚ) : ℝ) := by
  have hd : (MultiDatabaseSearch.ofOptions {}).freshnessDecayFactor = 1/10 := by
    norm_num [MultiDatabaseSearch.ofOptions, jsOrQ, DEFAULT_DECAY_FACTOR]
  have hp : (MultiDatabaseSearch.ofOptions {}).latestPriorityHours = 48 := by
    norm_num [MultiDatabaseSearch.ofOptions, jsOrQ, DEFAULT_PRIORITY_HOURS]
  simp only [MultiDatabaseSearch.calculateRelevance, hd, hp]
  have hAge : ((0 : ℚ) - 240 * MS_PER_HOUR) / MS_PER_HOUR = -240 := by
    norm_num [MS_PER_HOUR]
  rw [hAge]
  have hcond : ((-240 : ℚ) ≤ 48) := by norm_num
  rw [if_pos hcond]
  have hDays : ((-240 : ℚ) / HOURS_IN_DAY) = -10 := by norm_num [HOURS_IN_DAY]
  rw [hDays]
  have harg : -(((1/10 : ℚ) : ℝ) * ((-10 : ℚ) : ℝ)) = 1 := by push_cast; norm_num
  rw [harg]
  have hexp : (1:ℝ) < Real.exp 1 := Real.one_lt_exp_iff.mpr (by norm_num)
  push_cast [PRIORITY_BOOST_MULTIPLIER]
  nlinarith [hexp]

/-- Claim C2 (amended): `calculateRelevance` does not clamp negative ages;
for timestamps not in the future (`timestamp ≤ now`, i.e. `ageHours ≥ 0`),
with nonnegative base score, decay factor and boost, the adjusted score never
exceeds `baseScore × boost × maxBoost` where `maxBoost` is the priority
multiplier 1.5 — while a future timestamp can push the score above that bound
(see the counterexample). -/
theorem calculateRelevance_bounded_for_nonneg_age (s : MultiDatabaseSearch)
    (base ts now boost : ℚ) (hb : 0 ≤ base) (hd : 0 ≤ s.freshnessDecayFactor)
    (hbo : 0 ≤ boost) (hts : ts ≤ now) :
    s.calculateRelevance base ts now boost ≤
      (base : ℝ) * (boost : ℝ) * ((PRIORITY_BOOST_MULTIPLIER : ℚ) : ℝ) := by
  simp only [MultiDatabaseSearch.calculateRelevance]
  have hb' : (0:ℝ) ≤ (base:ℝ) := by exact_mod_cast hb
  have hbo' : (0:ℝ) ≤ (boost:ℝ) := by exact_mod_cast hbo
  have hAge : (0:ℚ) ≤ (now - ts) / MS_PER_HOUR :=
    div_nonneg (by linarith) (by norm_num [MS_PER_HOUR])
  have hDays : (0:ℚ) ≤ (now - ts) / MS_PER_HOUR / HOURS_IN_DAY :=
    div_nonneg hAge (by norm_num [HOURS_IN_DAY])
  have hPRI0 : (0:ℝ) ≤ ((PRIORITY_BOOST_MULTIPLIER : ℚ) : ℝ) := by
    norm_num [PRIORITY_BOOST_MULTIPLIER]
  have hPRI1 : (1:ℝ) ≤ ((PRIORITY_BOOST_MULTIPLIER : ℚ) : ℝ) := by
    norm_num [PRIORITY_BOOST_MULTIPLIER]
  set pen := Real.exp (-((s.freshnessDecayFactor : ℝ) *
      (((now - ts) / MS_PER_HOUR / HOURS_IN_DAY : ℚ) : ℝ))) with hpen
  have hexp : pen ≤ 1 := by
    rw [hpen, Real.exp_le_one_iff]
    have hmul : (0:ℝ) ≤ (s.freshnessDecayFactor : ℝ) *
        (((now - ts) / MS_PER_HOUR / HOURS_IN_DAY : ℚ) : ℝ) :=
      mul_nonneg (by exact_mod_cast hd) (by exact_mod_cast hDays)
    linarith
  have hpos : (0:ℝ) < pen := Real.exp_pos _
  by_cases hcond : (now - ts) / MS_PER_HOUR ≤ s.latestPriorityHours
  · rw [if_pos hcond, Rat.cast_mul]
    nlinarith [hexp, hpos, mul_nonneg (mul_nonneg hb' hbo') hPRI0]
  · rw [if_neg hcond]
    nlinarith [hexp, hpos, hPRI1, mul_nonneg hb' hbo']

/-- Witness for the amended C2 at decay factor 1, base = boost = 1,
timestamp = now = 0. -/
theorem calculateRelevance_bounded_witness :
    ((0:ℚ) ≤ 1) ∧ ((0:ℚ) ≤ (MultiDatabaseSearch.mk 1 10 48).freshnessDecayFactor) ∧
    ((0:ℚ) ≤ 0) ∧
    (MultiDatabaseSearch.mk 1 10 48).calculateRelevance 1 0 0 1 ≤
      ((1:ℚ) : ℝ) * ((1:ℚ) : ℝ) * ((PRIORITY_BOOST_MULTIPLIER : ℚ) : ℝ) :=
  ⟨zero_le_one, zero_le_one, le_refl 0,
   calculateRelevance_bounded_for_nonneg_age (MultiDatabaseSearch.mk 1 10 48) 1 0 0 1
     zero_le_one zero_le_one zero_le_one (le_refl 0)⟩

def cexTimestampedDoc : QdrantResult :=
  { id := "doc-1", payload := { created_at := some 1 }, collection := "boss-development-docs",
    score := 2 }

/-- Claim C3: configuring a decay factor of exactly 0 does not disable decay.
Both `parseTimestampSearchOptions` and the `MultiDatabaseSearch` constructor
default through `||`, for which `0` is falsy, so a configured `0` is silently
replaced by the default `0.1`; a result with a payload timestamp one day old
then scores `exp(-0.1) < 1` instead of the claimed decay term 1. -/
theorem decayFactor_zero_replaced_by_default :
    (parseTimestampSearchOptions { decay_factor := some 0 }).decay_factor = DEFAULT_DECAY_FACTOR ∧
    (MultiDatabaseSearch.ofOptions { freshnessDecayFactor := some 0 }).freshnessDecayFactor = DEFAULT_DECAY_FACTOR ∧
    DEFAULT_DECAY_FACTOR ≠ 0 ∧
    calculateTimestampScore cexTimestampedDoc (1 + MS_PER_HOUR * HOURS_IN_DAY)
      (parseTimestampSearchOptions { decay_factor := some 0 }).decay_factor < 1 := by
  have hparse : (parseTimestampSearchOptions { decay_factor := some 0 }).decay_factor = 1/10 := by
    norm_num [parseTimestampSearchOptions, jsOrQ, DEFAULT_DECAY_FACTOR]
  refine ⟨by rw [hparse]; norm_num [DEFAULT_DECAY_FACTOR], ?_,
    by norm_num [DEFAULT_DECAY_FACTOR], ?_⟩
  · norm_num [MultiDatabaseSearch.ofOptions, jsOrQ, DEFAULT_DECAY_FACTOR]
  · have hts : timestampField cexTimestampedDoc.payload = some 1 := by
      norm_num [timestampField, jsFirstTruthyQ, cexTimestampedDoc]
    rw [hparse]
    simp only [calculateTimestampScore, hts]
    rw [Real.exp_lt_one_iff]
    have hq : ((1 + MS_PER_HOUR * HOURS_IN_DAY - 1) / (MS_PER_HOUR * HOURS_IN_DAY) : ℚ) = 1 := by
      norm_num [MS_PER_HOUR, HOURS_IN_DAY]
    rw [hq]
    push_cast
    norm_num

/-- Enhancing a result keeps the underlying result unchanged. -/
theorem enhanceResult_base (now d : ℚ) (r : QdrantResult) : (enhanceResult now d r).base = r := rfl

/-- Claim C1 counterexample: querying both backends with freshness enabled,
where the mongo backend succeeds with the document `m1`, the ranked output of
`searchWithTimestampPriority` contains only the qdrant result `q1` — the
mongo result is neither scored nor present in the combined output (although
the summary still counts it in `total`), refuting the claim that the scorer
is applied to every result of every queried backend and the combined set is
sorted and truncated. -/
theorem timestampPriority_drops_mongo_results :
    cexMongoResp.success = true ∧
    (searchAll "q" (parseTimestampSearchOptions cexTPOptions).databases cexQdrantResp cexMongoResp).summary.successfulSources = 2 ∧
    (searchWithTimestampPriority "q" cexTPOptions cexQdrantResp cexMongoResp 0).total = 2 ∧
    (searchWithTimestampPriority "q" cexTPOptions cexQdrantResp cexMongoResp 0).results.map (fun e => e.base.id) = ["q1"] := by
  refine ⟨rfl, ?_, ?_, ?_⟩
  · simp [searchAll, formatSearchResults, createSearchResponses, parseTimestampSearchOptions,
      cexTPOptions, cexQdrantResp, cexMongoResp, List.filter]
  · simp [searchWithTimestampPriority, searchAll, formatSearchResults, createSearchResponses,
      parseTimestampSearchOptions, cexTPOptions, cexQdrantResp, cexMongoResp, totalOrCount]
  · simp [searchWithTimestampPriority, searchAll, formatSearchResults, createSearchResponses,
      parseTimestampSearchOptions, cexTPOptions, cexQdrantResp, cexMongoResp, List.lookup,
      applyTimestampScoring, List.mergeSort_singleton, enhanceResult, cexQdrantHit, jsOrNat, jsOrQ]

/-- Claim C1 (amended): with freshness weighting enabled and the qdrant
backend queried and carrying a result list, `searchWithTimestampPriority`
rescores exactly the qdrant backend's results — each output element is its
qdrant result with `enhanced_score = (score || 1) × timestampScore`, where a
missing payload timestamp gives factor 1 — and returns them sorted descending
by `enhanced_score`; results of other backends are not included and no
truncation to `config.limit` is applied after scoring. -/
theorem timestampPriority_scores_exactly_qdrant (query : String) (o : TimestampSearchOptions)
    (qdrantR mongoR : BackendResponse) (now : ℚ) (rs : List QdrantResult)
    (hdb : ((parseTimestampSearchOptions o).databases).contains "qdrant" = true)
    (hfb : (parseTimestampSearchOptions o).freshness_boost = true)
    (hres : qdrantR.results = some rs) :
    ((searchWithTimestampPriority query o qdrantR mongoR now).results.map OutResult.base).Perm rs ∧
    (∀ e ∈ (searchWithTimestampPriority query o qdrantR mongoR now).results,
      e = enhanceResult now (parseTimestampSearchOptions o).decay_factor e.base) ∧
    List.Pairwise (fun a b => b.enhanced_score.getD 0 ≤ a.enhanced_score.getD 0)
      (searchWithTimestampPriority query o qdrantR mongoR now).results := by
  have hdb2 : "qdrant" ∈ (parseTimestampSearchOptions o).databases := by simpa using hdb
  have hlook : ((searchAll query (parseTimestampSearchOptions o).databases qdrantR mongoR).databases).lookup "qdrant" = some qdrantR := by
    simp [searchAll, formatSearchResults, createSearchResponses, hdb2, List.lookup]
  have hresults : (searchWithTimestampPriority query o qdrantR mongoR now).results =
      applyTimestampScoring rs now (parseTimestampSearchOptions o).decay_factor := by
    simp [searchWithTimestampPriority, hlook, hres, hfb]
  rw [hresults]
  have hperm := List.mergeSort_perm
    (rs.map (enhanceResult now (parseTimestampSearchOptions o).decay_factor))
    (descBool (fun r => r.enhanced_score.getD 0))
  refine ⟨?_, ?_, ?_⟩
  · have hm := hperm.map OutResult.base
    rw [List.map_map] at hm
    have hid : (OutResult.base ∘ enhanceResult now (parseTimestampSearchOptions o).decay_factor) = id :=
      funext fun r => rfl
    rw [hid, List.map_id] at hm
    simpa [applyTimestampScoring] using hm
  · intro e he
    have hmem : e ∈ rs.map (enhanceResult now (parseTimestampSearchOptions o).decay_factor) := by
      refine hperm.mem_iff.1 ?_
      simpa [applyTimestampScoring] using he
    obtain ⟨r, hr, rfl⟩ := List.mem_map.1 hmem
    simp [enhanceResult]
  · simpa [applyTimestampScoring] using
      pairwise_mergeSort_descBool (fun r : OutResult => r.enhanced_score.getD 0)
        (rs.map (enhanceResult now (parseTimestampSearchOptions o).decay_factor))

/-- Witness for the amended C1 at a one-element qdrant response. -/
theorem timestampPriority_scores_exactly_qdrant_witness :
    ((parseTimestampSearchOptions cexTPOptions).databases.contains "qdrant" = true) ∧
    ((parseTimestampSearchOptions cexTPOptions).freshness_boost = true) ∧
    (cexQdrantResp.results = some [cexQdrantHit]) ∧
    ((searchWithTimestampPriority "q" cexTPOptions cexQdrantResp cexMongoResp 0).results.map OutResult.base).Perm [cexQdrantHit] ∧
    List.Pairwise (fun a b => b.enhanced_score.getD 0 ≤ a.enhanced_score.getD 0)
      (searchWithTimestampPriority "q" cexTPOptions cexQdrantResp cexMongoResp 0).results :=
  ⟨by decide, by decide, rfl,
   (timestampPriority_scores_exactly_qdrant "q" cexTPOptions cexQdrantResp cexMongoResp 0
     [cexQdrantHit] (by decide) (by decide) rfl).1,
   (timestampPriority_scores_exactly_qdrant "q" cexTPOptions cexQdrantResp cexMongoResp 0
     [cexQdrantHit] (by decide) (by decide) rfl).2.2⟩

/-- Claim C10: `listActiveSessions` applies a non-empty `projectName` filter
as a substring match on the session *file name*, never consulting the stored
`projectName` field: provided the store fits within `maxActiveSessions`,
every stored valid session whose file name contains the filter string is
listed (whatever its stored project name), and every listed session comes
from a file whose name contains the filter string (so a session whose stored
project name equals the filter is excluded when its file name does not
contain it). -/
theorem listActiveSessions_filters_by_filename (cfg : BridgeConfig) (store : Store)
    (now : ℚ) (pn : String) (hpn : pn ≠ "")
    (hlen : store.length ≤ cfg.maxActiveSessions) :
    (∀ (file : String) (e : FileEntry) (sd : SessionData),
      (file, e) ∈ store → e.size ≠ 0 → e.parsed = some sd →
      listEndsWith file.data ".json".data = true →
      containsSeq file.data pn.data = true →
      mkListing cfg now file e sd ∈ (listActiveSessions cfg store now (some pn)).sessions) ∧
    (∀ l ∈ (listActiveSessions cfg store now (some pn)).sessions,
      ∃ (file : String) (e : FileEntry) (sd : SessionData),
        (file, e) ∈ store ∧ e.size ≠ 0 ∧ e.parsed = some sd ∧
        listEndsWith file.data ".json".data = true ∧
        containsSeq file.data pn.data = true ∧
        l = mkListing cfg now file e sd) := by
  have htruthy : jsTruthyStr (some pn) = true := by
    simp [jsTruthyStr, hpn]
  have hraw_le : (listSessionsRaw cfg store now (some pn)).length ≤ cfg.maxActiveSessions :=
    le_trans (List.length_filterMap_le _ _) hlen
  have hperm := List.mergeSort_perm (listSessionsRaw cfg store now (some pn))
    (descBool (fun l => l.relevanceScore))
  have htake : ((listSessionsRaw cfg store now (some pn)).mergeSort
      (descBool (fun l => l.relevanceScore))).take cfg.maxActiveSessions =
      (listSessionsRaw cfg store now (some pn)).mergeSort
        (descBool (fun l => l.relevanceScore)) :=
    List.take_of_length_le (by rw [hperm.length_eq]; exact hraw_le)
  have hsess : (listActiveSessions cfg store now (some pn)).sessions =
      (listSessionsRaw cfg store now (some pn)).mergeSort
        (descBool (fun l => l.relevanceScore)) := by
    simp [listActiveSessions, htake]
  constructor
  · intro file e sd hmem hsz hparsed hj hc
    rw [hsess, hperm.mem_iff]
    apply List.mem_filterMap.2
    refine ⟨(file, e), hmem, ?_⟩
    have haccept : sessionFileAccept (some pn) file = true := by
      simp [sessionFileAccept, htruthy, hj, hc]
    simp [haccept, hsz, hparsed]
  · intro l hl
    rw [hsess, hperm.mem_iff] at hl
    obtain ⟨⟨file, e⟩, hmem, heq⟩ := List.mem_filterMap.1 hl
    by_cases hacc : sessionFileAccept (some pn) file = true
    · have hparts : listEndsWith file.data ".json".data = true ∧
          containsSeq file.data pn.data = true := by
        simpa [sessionFileAccept, htruthy] using hacc
      by_cases hsz : e.size = 0
      · simp [hacc, hsz] at heq
      · cases hp : e.parsed with
        | none => simp [hacc, hsz, hp] at heq
        | some sd =>
          have hleq : l = mkListing cfg now file e sd := by
            have := heq
            simp [hacc, hsz, hp] at this
            exact this.symm
          exact ⟨file, e, sd, hmem, hsz, hp, hparts.1, hparts.2, hleq⟩
    · simp [hacc] at heq

/-- Witness for C10: a session file named `beta-7.json` whose *stored*
project name is `alpha` is nevertheless listed under the filter `beta`. -/
theorem listActiveSessions_filename_filter_witness :
    mkListing cexBridgeCfg 0 "beta-7.json" cexListEntry cexListSession ∈
      (listActiveSessions cexBridgeCfg cexListStore 0 (some "beta")).sessions :=
  (listActiveSessions_filters_by_filename cexBridgeCfg cexListStore 0 "beta"
      (by decide) (by decide)).1 "beta-7.json" cexListEntry cexListSession
    (by decide) (by decide) rfl (by decide) (by decide)

end RagSuperior
